import Mathlib

/-!
Verification of the statement-building and table-lifecycle layer of
batch/batch/database.py: the WHERE-clause builder `make_where_statement`,
the `Database` DDL operations (has_table, create_table, drop_table,
create_temporary_table) and the `Table` row operations (new_record,
update_record, get_record, has_record, delete_record).

Each Python function is embedded as a pure Lean function over explicit
inputs.  Statements are modelled as the SQL text together with the ordered
list of bound parameters; async plumbing (pool acquisition, cursors) is
erased, and the database server / driver behaviour is modelled from the
external-interface contract of the design document (a SELECT's result rows;
the driver rowcount returned by cursor.execute).
-/

namespace BatchDb

/-- Scalar values bound as SQL parameters: the embedding's stand-in for the
Python scalars handed to the database layer. -/
inductive Value
  | int (n : Int)
  | str (s : String)
deriving DecidableEq

/-- A filter value as accepted by make_where_statement: either one scalar
(an equality filter) or a Python list (a set-membership filter). -/
inductive FilterVal
  | scalar (v : Value)
  | list (vs : List Value)
deriving DecidableEq

/-- Each backtick doubled, other characters unchanged. -/
def escapeChars : List Char → List Char
  | [] => []
  | c :: cs => if c = '`' then '`' :: '`' :: escapeChars cs else c :: escapeChars cs

/-- Backtick-escaping of an identifier: the Python `s.replace("`", "``")`,
which for the one-character pattern doubles every backtick of s. -/
def escapeId (s : String) : String := String.mk (escapeChars s.data)

/-- An identifier wrapped in backticks with inner backticks doubled first:
the f-string pattern `` `{k.replace("`", "``")}` `` used for column names
throughout database.py, and the quoting discipline the design document
prescribes for identifiers. -/
def quoteId (s : String) : String := "`" ++ escapeId s ++ "`"

/-- The loop of make_where_statement (database.py lines 93-102): for each
(column, value) pair in iteration order, the predicate term it appends and
the bound value it appends (none for an empty list, which becomes the
literal term FALSE). -/
def whereParts : List (String × FilterVal) → List String × List FilterVal
  | [] => ([], [])
  | (k, FilterVal.scalar v) :: rest =>
      ((quoteId k ++ " = %s") :: (whereParts rest).1,
        FilterVal.scalar v :: (whereParts rest).2)
  | (_, FilterVal.list []) :: rest =>
      ("FALSE" :: (whereParts rest).1, (whereParts rest).2)
  | (k, FilterVal.list (v :: vs)) :: rest =>
      ((quoteId k ++ " IN %s") :: (whereParts rest).1,
        FilterVal.list (v :: vs) :: (whereParts rest).2)

/-- make_where_statement (database.py lines 90-105): the predicate template,
terms joined with " AND ", together with the ordered bound values. -/
def make_where_statement (items : List (String × FilterVal)) :
    String × List FilterVal :=
  (String.intercalate " AND " (whereParts items).1, (whereParts items).2)

/-- The SET fragment of update_record (database.py line 130). -/
def set_template (set_items : List (String × Value)) : String :=
  String.intercalate ", " (set_items.map (fun kv => quoteId kv.1 ++ " = %s"))

/-- The SET bound values of update_record (database.py line 131). -/
def set_params (set_items : List (String × Value)) : List FilterVal :=
  set_items.map (fun kv => FilterVal.scalar kv.2)

/-- update_record (database.py lines 125-133), modelled as the list of SQL
statements it executes with their bound parameters: the empty list when
set_items is empty (the `if len(set_items) != 0` guard issues nothing), and
exactly one UPDATE whose parameters are the SET values followed by the
WHERE-bound values otherwise. -/
def update_record (tname : String) (where_items : List (String × FilterVal))
    (set_items : List (String × Value)) : List (String × List FilterVal) :=
  if set_items.length ≠ 0 then
    [("UPDATE `" ++ tname ++ "` SET " ++ set_template set_items ++ " WHERE "
        ++ (make_where_statement where_items).1,
      set_params set_items ++ (make_where_statement where_items).2)]
  else []

/-- get_record (database.py lines 135-144) as the statement it executes:
`none` models the `assert select_fields is None or len(select_fields) != 0`
failure; otherwise the SELECT with the fields joined verbatim by "," (or *)
and the WHERE-bound values. -/
def get_record_sql (tname : String) (where_items : List (String × FilterVal))
    (select_fields : Option (List String)) : Option (String × List FilterVal) :=
  if select_fields = some [] then none
  else
    some ("SELECT "
        ++ (match select_fields with
            | some fs => String.intercalate "," fs
            | none => "*")
        ++ " FROM `" ++ tname ++ "` WHERE " ++ (make_where_statement where_items).1,
      (make_where_statement where_items).2)

/-- The statement has_record executes (database.py lines 149-151). -/
def has_record_sql (tname : String) (where_items : List (String × FilterVal)) :
    String × List FilterVal :=
  ("SELECT COUNT(1) FROM `" ++ tname ++ "` WHERE "
      ++ (make_where_statement where_items).1,
   (make_where_statement where_items).2)

/-- delete_record (database.py lines 154-159) as the statement it executes. -/
def delete_record_sql (tname : String) (where_items : List (String × FilterVal)) :
    String × List FilterVal :=
  ("DELETE FROM `" ++ tname ++ "` WHERE " ++ (make_where_statement where_items).1,
   (make_where_statement where_items).2)

/-- new_record (database.py lines 115-123) as the INSERT statement it
executes with its bound values. -/
def new_record_sql (tname : String) (items : List (String × Value)) :
    String × List Value :=
  ("INSERT INTO `" ++ tname ++ "` ("
      ++ String.intercalate ", " (items.map (fun kv => quoteId kv.1))
      ++ ") VALUES ("
      ++ String.intercalate ", " (items.map (fun _ => "%s")) ++ ")",
   items.map Prod.snd)

/-- drop_table (database.py lines 53-56): every name is wrapped in backticks
(without escaping inner backticks) and the names are joined with commas. -/
def drop_table_sql (names : List String) : String :=
  "DROP TABLE IF EXISTS "
    ++ String.intercalate "," (names.map (fun n => "`" ++ n ++ "`"))

/-- The column-definition fragment of create_table (database.py line 66):
quoted column name, a space, then the raw type string. -/
def schemaDef (schema : List (String × String)) : String :=
  String.intercalate ", " (schema.map (fun nt => quoteId nt.1 ++ " " ++ nt.2))

/-- The quoted primary-key name list of create_table (database.py line 67). -/
def keyNames (keys : List String) : String :=
  String.intercalate ", " (keys.map quoteId)

/-- The PRIMARY KEY clause of create_table (database.py line 68): the empty
string exactly when the key list is empty (Python truthiness of `keys`). -/
def keysClause (keys : List String) : String :=
  if keys.isEmpty then "" else ", PRIMARY KEY( " ++ keyNames keys ++ " )"

/-- The IF NOT EXISTS fragment of create_table (database.py line 69). -/
def existsClause (can_exist : Bool) : String :=
  if can_exist then "IF NOT EXISTS" else ""

/-- create_table (database.py lines 61-71): `none` models the failure of
`assert all([k in schema for k in keys])`; otherwise the CREATE TABLE text
of line 70 (table name wrapped in backticks without escaping). -/
def create_table (name : String) (schema : List (String × String))
    (keys : List String) (can_exist : Bool) : Option String :=
  if keys.all (fun k => (schema.map Prod.fst).contains k) then
    some ("CREATE TABLE " ++ existsClause can_exist ++ " `" ++ name ++ "` ( "
        ++ schemaDef schema ++ " " ++ keysClause keys ++ ")")
  else none

/-- The information-schema catalog, modelled as its (TABLE_SCHEMA,
TABLE_NAME) rows; this filter is the server's evaluation of the query
has_table binds (self.db, name) into (database.py lines 44-46). -/
def infoSchemaRows (catalog : List (String × String)) (db tname : String) :
    List (String × String) :=
  catalog.filter (fun r => r.1 == db && r.2 == tname)

/-- has_table (database.py lines 41-48): fetch the first row of the catalog
query's result and report whether it is not None. -/
def has_table (catalog : List (String × String)) (db tname : String) : Bool :=
  (infoSchemaRows catalog db tname).head?.isSome

/-- A database row, for the semantics of the WHERE clauses the layer emits. -/
abbrev Row := List (String × Value)

/-- The value of a row's column, by first occurrence. -/
def rowLookup (row : Row) (k : String) : Option Value :=
  (row.find? (fun kv => kv.1 == k)).map Prod.snd

/-- Whether a row satisfies the predicate make_where_statement builds:
equality for a scalar filter, membership for a list filter, and FALSE for an
empty list, conjoined over the keys — the SQL semantics of the emitted
template under the design document's external-interface contract. -/
def filterMatches (row : Row) : List (String × FilterVal) → Bool
  | [] => true
  | (k, FilterVal.scalar v) :: rest =>
      (rowLookup row k == some v) && filterMatches row rest
  | (k, FilterVal.list vs) :: rest =>
      (vs.any (fun v => rowLookup row k == some v)) && filterMatches row rest

/-- The COUNT(1) value of has_record's query: how many rows match. -/
def countMatching (tbl : List Row) (items : List (String × FilterVal)) : Nat :=
  (tbl.filter (fun r => filterMatches r items)).length

/-- The result set of the SELECT COUNT(1) query: exactly one row, holding
the count of matching rows. -/
def countQueryRows (tbl : List Row) (items : List (String × FilterVal)) :
    List Nat :=
  [countMatching tbl items]

/-- has_record as database.py lines 146-152 computes it: the value it tests
against 1 is the return of cursor.execute, which is the driver rowcount —
for a SELECT, the number of rows in the result set — not the fetched
COUNT(1) value. -/
def has_record (tbl : List Row) (items : List (String × FilterVal)) : Bool :=
  decide ((countQueryRows tbl items).length ≥ 1)

/-- has_record as the design document specifies it: read the COUNT(1) value
itself and test it against 1. -/
def has_record_spec (tbl : List Row) (items : List (String × FilterVal)) : Bool :=
  decide (countMatching tbl items ≥ 1)

/-- Database errors raised by the driver during table creation: the
name-collision class create_temporary_table swallows (pymysql InternalError)
and everything else. -/
inductive DbError
  | internalError
  | otherError (code : Nat)
deriving DecidableEq

/-- The outcome of create_temporary_table (database.py lines 76-84). -/
inductive TempResult
  | ok (tname : String)
  | tooManyAttempts
  | raised (e : DbError)
deriving DecidableEq

/-- The retry loop of create_temporary_table: i is the Python loop index of
`for i in range(5)` and fuel the remaining iterations; each attempt draws
suffix i, tries to create `root-suffix` (can_exist = False), returns the
Table on success, swallows only InternalError and continues, re-raises any
other error, and raises "Too many attempts to get temp table." after the
loop. The random uuid4 suffixes and the server's reaction are abstracted as
the oracles `suffix` and `create`. -/
def tempTableLoop (root : String) (suffix : Nat → String)
    (create : String → Except DbError Unit) : Nat → Nat → TempResult
  | _, 0 => TempResult.tooManyAttempts
  | i, fuel + 1 =>
    match create (root ++ "-" ++ suffix i) with
    | Except.ok _ => TempResult.ok (root ++ "-" ++ suffix i)
    | Except.error DbError.internalError => tempTableLoop root suffix create (i + 1) fuel
    | Except.error (DbError.otherError c) => TempResult.raised (DbError.otherError c)

/-- create_temporary_table (database.py lines 76-84): the loop started at
i = 0 with the five iterations of range(5). -/
def create_temporary_table (root : String) (suffix : Nat → String)
    (create : String → Except DbError Unit) : TempResult :=
  tempTableLoop root suffix create 0 5

/-- get_record as claim C2 reads it: the projected column list quoted like
every other identifier (the code instead joins the fields verbatim). -/
def get_record_sql_claimed (tname : String) (where_items : List (String × FilterVal))
    (select_fields : Option (List String)) : Option (String × List FilterVal) :=
  if select_fields = some [] then none
  else
    some ("SELECT "
        ++ (match select_fields with
            | some fs => String.intercalate "," (fs.map quoteId)
            | none => "*")
        ++ " FROM " ++ quoteId tname ++ " WHERE " ++ (make_where_statement where_items).1,
      (make_where_statement where_items).2)

/-! ## Helper lemmas -/

theorem whereParts_scalars (l : List (String × Value)) :
    whereParts (l.map (fun kv => (kv.1, FilterVal.scalar kv.2)))
      = (l.map (fun kv => quoteId kv.1 ++ " = %s"),
         l.map (fun kv => FilterVal.scalar kv.2)) := by
  induction l with
  | nil => rfl
  | cons p rest ih => simp [whereParts, ih]

theorem whereParts_append (l1 l2 : List (String × FilterVal)) :
    whereParts (l1 ++ l2)
      = ((whereParts l1).1 ++ (whereParts l2).1,
         (whereParts l1).2 ++ (whereParts l2).2) := by
  induction l1 with
  | nil => rfl
  | cons p rest ih =>
    obtain ⟨k, v⟩ := p
    cases v with
    | scalar s => simp [whereParts, ih]
    | list vs => cases vs <;> simp [whereParts, ih]

/-! ## Claims -/

/-- Claim C9: for the empty filter mapping, make_where_statement returns the
empty string as the predicate template and an empty bound-value list. -/
theorem make_where_statement_empty : make_where_statement [] = ("", []) := rfl

/-- Claim C4: on every non-empty filter mapping whose values are all
scalars, make_where_statement returns exactly one quoted-column = %s term
per key, joined by " AND " in iteration order, with the scalar values bound
in the same order. -/
theorem make_where_statement_all_scalars (p : String × Value)
    (l : List (String × Value)) :
    make_where_statement ((p :: l).map (fun kv => (kv.1, FilterVal.scalar kv.2)))
      = (String.intercalate " AND "
            ((p :: l).map (fun kv => quoteId kv.1 ++ " = %s")),
         (p :: l).map (fun kv => FilterVal.scalar kv.2)) := by
  simp only [make_where_statement, whereParts_scalars]

/-- Claim C5: a key with an empty-list value contributes the literal term
FALSE and no bound value, while a key with a non-empty list value
contributes a quoted-column IN %s term with the whole list bound as one
parameter; the surrounding keys are unaffected. -/
theorem make_where_statement_list_values (pre post : List (String × FilterVal))
    (k k' : String) (v : Value) (vs : List Value) :
    make_where_statement (pre ++ (k, FilterVal.list []) :: post)
        = (String.intercalate " AND "
              ((whereParts pre).1 ++ "FALSE" :: (whereParts post).1),
           (whereParts pre).2 ++ (whereParts post).2)
  ∧ make_where_statement (pre ++ (k', FilterVal.list (v :: vs)) :: post)
        = (String.intercalate " AND "
              ((whereParts pre).1 ++ (quoteId k' ++ " IN %s") :: (whereParts post).1),
           (whereParts pre).2 ++ FilterVal.list (v :: vs) :: (whereParts post).2) := by
  constructor <;> simp [make_where_statement, whereParts_append, whereParts]

/-- Claim C6: update_record with an empty set-values mapping executes no
statement at all (so any state transition over its statement list is the
identity), whatever the where-filters; with a non-empty set-values mapping
it executes exactly one UPDATE whose parameters are all SET values followed
by all WHERE-bound values. -/
theorem update_record_empty_set_noop {α : Type} (tname : String)
    (w : List (String × FilterVal)) (p : String × Value)
    (l : List (String × Value)) (apply : α → String × List FilterVal → α)
    (st : α) :
    update_record tname w [] = []
  ∧ List.foldl apply st (update_record tname w []) = st
  ∧ update_record tname w (p :: l)
      = [("UPDATE `" ++ tname ++ "` SET " ++ set_template (p :: l) ++ " WHERE "
            ++ (make_where_statement w).1,
          set_params (p :: l) ++ (make_where_statement w).2)] := by
  refine ⟨rfl, rfl, ?_⟩
  simp [update_record]

/-- Claim C10: with the empty filter mapping, get_record, has_record,
delete_record and update_record (with non-empty set values) all interpolate
the WHERE keyword followed by the empty predicate string, rather than
omitting the WHERE clause. -/
theorem empty_filter_keeps_where_keyword (tname : String) (p : String × Value)
    (l : List (String × Value)) :
    get_record_sql tname [] none
        = some ("SELECT * FROM `" ++ tname ++ "` WHERE ", [])
  ∧ has_record_sql tname [] = ("SELECT COUNT(1) FROM `" ++ tname ++ "` WHERE ", [])
  ∧ delete_record_sql tname [] = ("DELETE FROM `" ++ tname ++ "` WHERE ", [])
  ∧ update_record tname [] (p :: l)
      = [("UPDATE `" ++ tname ++ "` SET " ++ set_template (p :: l) ++ " WHERE ",
          set_params (p :: l))] := by
  refine ⟨?_, ?_, ?_, ?_⟩ <;>
    simp [get_record_sql, has_record_sql, delete_record_sql, update_record,
      make_where_statement, whereParts, String.intercalate, String.append_empty]

/-- Claim C1 (the code, not the claim, is wrong): has_record compares the
driver rowcount of the COUNT(1) query — the length of its one-row result
set, always 1 — against 1, so it returns true for every table state and
every filter, including a filter matching zero rows where the COUNT(1)
value is 0 and the specified semantics returns false. -/
theorem has_record_ignores_count_value :
    (∀ (tbl : List Row) (items : List (String × FilterVal)),
        has_record tbl items = true)
  ∧ has_record [] [("id", FilterVal.scalar (Value.int 1))] = true
  ∧ countMatching [] [("id", FilterVal.scalar (Value.int 1))] = 0
  ∧ has_record_spec [] [("id", FilterVal.scalar (Value.int 1))] = false := by
  refine ⟨fun tbl items => ?_, rfl, rfl, rfl⟩
  simp [has_record, countQueryRows]

/-- Claim C7: has_table returns true exactly when the information-schema
query for (database name, table name) has a matching row, and false when it
returns none. -/
theorem has_table_iff_catalog_row (catalog : List (String × String))
    (db tname : String) :
    has_table catalog db tname = true ↔ (db, tname) ∈ catalog := by
  have hne : has_table catalog db tname = true
      ↔ ¬(catalog.filter (fun r => r.1 == db && r.2 == tname) = []) := by
    simp [has_table, infoSchemaRows, List.head?_isSome]
  rw [hne, List.filter_eq_nil_iff]
  push_neg
  constructor
  · rintro ⟨⟨a, b⟩, hmem, hab⟩
    simp only [Bool.and_eq_true, beq_iff_eq] at hab
    obtain ⟨rfl, rfl⟩ := hab
    exact hmem
  · intro hmem
    exact ⟨(db, tname), hmem, by simp⟩

/-- Claim C8: create_table fails at the assertion whenever some primary-key
column is not a schema key; when every primary-key column is a schema key it
issues the CREATE TABLE statement, whose PRIMARY KEY clause is present
exactly when the key list is non-empty. -/
theorem create_table_key_precondition (name : String)
    (schema : List (String × String)) (keys : List String) (ce : Bool)
    (k0 : String) (ks : List String) :
    ((¬ ∀ k ∈ keys, k ∈ schema.map Prod.fst) →
        create_table name schema keys ce = none)
  ∧ ((∀ k ∈ keys, k ∈ schema.map Prod.fst) →
        create_table name schema keys ce
          = some ("CREATE TABLE " ++ existsClause ce ++ " `" ++ name ++ "` ( "
              ++ schemaDef schema ++ " " ++ keysClause keys ++ ")"))
  ∧ keysClause [] = ""
  ∧ keysClause (k0 :: ks) = ", PRIMARY KEY( " ++ keyNames (k0 :: ks) ++ " )" := by
  have hcond : (keys.all (fun k => (schema.map Prod.fst).contains k) = true)
      ↔ ∀ k ∈ keys, k ∈ schema.map Prod.fst := by
    simp [List.all_eq_true]
  refine ⟨fun h => ?_, fun h => ?_, rfl, rfl⟩
  · unfold create_table
    rw [if_neg (fun hc => h (hcond.mp hc))]
  · unfold create_table
    rw [if_pos (hcond.mpr h)]

/-- Witness for claim C8 at the design document's own example: schema
{"id": "INT"} with primary key ["nope"] violates the precondition, while
primary key ["id"] satisfies it and produces the CREATE TABLE statement. -/
theorem create_table_key_precondition_witness :
    create_table "t" [("id", "INT")] ["nope"] true = none
  ∧ create_table "t" [("id", "INT")] ["id"] true
      = some ("CREATE TABLE " ++ existsClause true ++ " `" ++ "t" ++ "` ( "
          ++ schemaDef [("id", "INT")] ++ " " ++ keysClause ["id"] ++ ")") := by
  exact ⟨(create_table_key_precondition "t" [("id", "INT")] ["nope"] true "x" []).1
      (by decide),
    (create_table_key_precondition "t" [("id", "INT")] ["id"] true "x" []).2.1
      (by decide)⟩

theorem tempTableLoop_all_internal (root : String) (suffix : Nat → String)
    (create : String → Except DbError Unit) :
    ∀ (fuel i : Nat),
      (∀ j, i ≤ j → j < i + fuel →
        create (root ++ "-" ++ suffix j) = Except.error DbError.internalError) →
      tempTableLoop root suffix create i fuel = TempResult.tooManyAttempts := by
  intro fuel
  induction fuel with
  | zero => intro i _; rfl
  | succ n ih =>
    intro i h
    have hi := h i (Nat.le_refl i) (by omega)
    unfold tempTableLoop
    rw [hi]
    exact ih (i + 1) (fun j hj1 hj2 => h j (by omega) (by omega))

theorem tempTableLoop_suffix_agree (root : String) (suffix suffix' : Nat → String)
    (create : String → Except DbError Unit) :
    ∀ (fuel i : Nat),
      (∀ j, i ≤ j → j < i + fuel → suffix j = suffix' j) →
      tempTableLoop root suffix create i fuel
        = tempTableLoop root suffix' create i fuel := by
  intro fuel
  induction fuel with
  | zero => intro i _; rfl
  | succ n ih =>
    intro i h
    have hi : suffix i = suffix' i := h i (Nat.le_refl i) (by omega)
    unfold tempTableLoop
    rw [hi]
    cases hc : create (root ++ "-" ++ suffix' i) with
    | ok u => rfl
    | error e =>
      cases e with
      | internalError =>
        exact ih (i + 1) (fun j hj1 hj2 => h j (by omega) (by omega))
      | otherError c => rfl

theorem tempTableLoop_propagates (root : String) (suffix : Nat → String)
    (create : String → Except DbError Unit) (c : Nat) :
    ∀ (fuel i k : Nat), i ≤ k → k < i + fuel →
      (∀ j, i ≤ j → j < k →
        create (root ++ "-" ++ suffix j) = Except.error DbError.internalError) →
      create (root ++ "-" ++ suffix k) = Except.error (DbError.otherError c) →
      tempTableLoop root suffix create i fuel
        = TempResult.raised (DbError.otherError c) := by
  intro fuel
  induction fuel with
  | zero => intro i k h1 h2 _ _; omega
  | succ n ih =>
    intro i k h1 h2 hpre hk
    unfold tempTableLoop
    rcases Nat.eq_or_lt_of_le h1 with heq | hlt
    · subst heq
      rw [hk]
    · have hi := hpre i (Nat.le_refl i) hlt
      rw [hi]
      exact ih (i + 1) k hlt (by omega) (fun j hj1 hj2 => hpre j (by omega) hj2) hk

/-- Claim C3: (1) when every one of the five attempts fails with the
name-collision class (pymysql InternalError), create_temporary_table raises
the too-many-attempts error; (2) its outcome depends only on the first five
generated suffixes — no sixth attempt is made; (3) any error outside the
name-collision class is not swallowed: the first such error propagates. -/
theorem create_temporary_table_retry (root : String) (suffix suffix' : Nat → String)
    (create : String → Except DbError Unit) (k c : Nat) :
    ((∀ i, i < 5 →
        create (root ++ "-" ++ suffix i) = Except.error DbError.internalError) →
      create_temporary_table root suffix create = TempResult.tooManyAttempts)
  ∧ ((∀ i, i < 5 → suffix i = suffix' i) →
      create_temporary_table root suffix create
        = create_temporary_table root suffix' create)
  ∧ (k < 5 →
      (∀ j, j < k →
        create (root ++ "-" ++ suffix j) = Except.error DbError.internalError) →
      create (root ++ "-" ++ suffix k) = Except.error (DbError.otherError c) →
      create_temporary_table root suffix create
        = TempResult.raised (DbError.otherError c)) := by
  refine ⟨fun h => ?_, fun h => ?_, fun hk hpre hc => ?_⟩
  · exact tempTableLoop_all_internal root suffix create 5 0
      (fun j _ hj2 => h j (by omega))
  · exact tempTableLoop_suffix_agree root suffix suffix' create 5 0
      (fun j _ hj2 => h j (by omega))
  · exact tempTableLoop_propagates root suffix create c 5 0 k (Nat.zero_le k)
      (by omega) (fun j _ hj2 => hpre j hj2) hc

/-- Witness for claim C3: with every attempt colliding the result is the
too-many-attempts error; with the first attempt failing outside the
collision class that error propagates; and the outcome is stable under
agreement of the first five suffixes. -/
theorem create_temporary_table_retry_witness :
    create_temporary_table "t" (fun _ => "s")
        (fun _ => Except.error DbError.internalError) = TempResult.tooManyAttempts
  ∧ create_temporary_table "t" (fun _ => "s")
        (fun _ => Except.error (DbError.otherError 7))
      = TempResult.raised (DbError.otherError 7)
  ∧ create_temporary_table "t" (fun _ => "s")
        (fun _ => Except.error DbError.internalError)
      = create_temporary_table "t" (fun _ => "s")
        (fun _ => Except.error DbError.internalError) := by
  refine ⟨?_, ?_, ?_⟩
  · exact (create_temporary_table_retry "t" (fun _ => "s") (fun _ => "s")
      (fun _ => Except.error DbError.internalError) 0 7).1 (fun i _ => rfl)
  · exact (create_temporary_table_retry "t" (fun _ => "s") (fun _ => "s")
      (fun _ => Except.error (DbError.otherError 7)) 0 7).2.2 (by omega)
      (fun j hj => absurd hj (Nat.not_lt_zero j)) rfl
  · exact (create_temporary_table_retry "t" (fun _ => "s") (fun _ => "s")
      (fun _ => Except.error DbError.internalError) 0 7).2.1 (fun i _ => rfl)

theorem whereParts_fst_map (items : List (String × FilterVal)) :
    (whereParts items).1 = items.map (fun kv =>
        match kv.2 with
        | FilterVal.list [] => "FALSE"
        | FilterVal.list (_ :: _) => quoteId kv.1 ++ " IN %s"
        | FilterVal.scalar _ => quoteId kv.1 ++ " = %s") := by
  induction items with
  | nil => rfl
  | cons p rest ih =>
    obtain ⟨k, v⟩ := p
    cases v with
    | scalar s => simp [whereParts, ih]
    | list vs => cases vs <;> simp [whereParts, ih]

/-- Claim C2 is false of the code: get_record interpolates the projected
column list verbatim with no delimiters at all, and table names (here in
DROP TABLE) are wrapped in backticks without doubling inner backticks, both
differing from the claimed uniformly escaped-and-wrapped form. -/
theorem select_fields_and_table_names_not_escaped :
    get_record_sql "t" [] (some ["c"]) = some ("SELECT c FROM `t` WHERE ", [])
  ∧ get_record_sql_claimed "t" [] (some ["c"])
      = some ("SELECT `c` FROM `t` WHERE ", [])
  ∧ get_record_sql "t" [] (some ["c"]) ≠ get_record_sql_claimed "t" [] (some ["c"])
  ∧ drop_table_sql ["a`b"] = "DROP TABLE IF EXISTS `a`b`"
  ∧ drop_table_sql ["a`b"] ≠ "DROP TABLE IF EXISTS " ++ quoteId "a`b" := by
  refine ⟨?_, ?_, ?_, ?_, ?_⟩ <;> decide

/-- Claim C2 amended: the backtick-wrap-and-double quoting is applied to the
column names of the WHERE builder, of the CREATE TABLE column definitions
and primary-key list, of the INSERT column list and of the UPDATE SET list;
table names are wrapped in backticks without doubling; and the projected
column list of select is interpolated verbatim, with no delimiters. -/
theorem identifier_quoting_by_position (items : List (String × FilterVal))
    (schema : List (String × String)) (keys names fields : List String)
    (tname f0 : String) (ivs : List (String × Value)) :
    (whereParts items).1 = items.map (fun kv =>
        match kv.2 with
        | FilterVal.list [] => "FALSE"
        | FilterVal.list (_ :: _) => quoteId kv.1 ++ " IN %s"
        | FilterVal.scalar _ => quoteId kv.1 ++ " = %s")
  ∧ schemaDef schema
      = String.intercalate ", " (schema.map (fun nt => quoteId nt.1 ++ " " ++ nt.2))
  ∧ keyNames keys = String.intercalate ", " (keys.map quoteId)
  ∧ (new_record_sql tname ivs).1
      = "INSERT INTO `" ++ tname ++ "` ("
          ++ String.intercalate ", " (ivs.map (fun kv => quoteId kv.1))
          ++ ") VALUES (" ++ String.intercalate ", " (ivs.map (fun _ => "%s")) ++ ")"
  ∧ set_template ivs
      = String.intercalate ", " (ivs.map (fun kv => quoteId kv.1 ++ " = %s"))
  ∧ drop_table_sql names
      = "DROP TABLE IF EXISTS "
          ++ String.intercalate "," (names.map (fun n => "`" ++ n ++ "`"))
  ∧ get_record_sql tname items (some (f0 :: fields))
      = some ("SELECT " ++ String.intercalate "," (f0 :: fields) ++ " FROM `"
          ++ tname ++ "` WHERE " ++ (make_where_statement items).1,
        (make_where_statement items).2)
  ∧ (has_record_sql tname items).1
      = "SELECT COUNT(1) FROM `" ++ tname ++ "` WHERE "
          ++ (make_where_statement items).1
  ∧ (delete_record_sql tname items).1
      = "DELETE FROM `" ++ tname ++ "` WHERE " ++ (make_where_statement items).1 := by
  refine ⟨whereParts_fst_map items, rfl, rfl, rfl, rfl, rfl, ?_, rfl, rfl⟩
  simp [get_record_sql]

end BatchDb
